import Mathlib

/-!
# Verification of the xconn WAMP client session core

Shallow embedding of the `xconn` Rust WAMP client library
(`src/async_/session.rs`, `src/sync/session.rs`, `src/async_/rawsocket.rs`
and the request/response types of `src/types.rs` / `src/sync/types.rs`),
together with theorems settling the frozen claims about it.

Conventions of the embedding:
* Rust `HashMap<i64, T>` becomes an association list `List (Int × T)`
  with `lookupI` / `insertI` / `removeI` mirroring `get` / `insert` / `remove`.
* The tokio/std mpsc sender stored in a pending map is modelled by an abstract
  channel identifier (`Nat`); a value sent into a channel becomes a `Delivery`.
* A spawned handler task becomes a `SpawnedTask` value; running it yields the
  single frame it would write to the peer (`Option Frame`), `none` when the
  handler panics (Rust unwinding aborts the task before any write — the source
  has no `catch_unwind`).
* Fallible collaborators (message encoding, `peer.write`, the reply channel)
  become explicit boolean / `Option` oracles threaded into the operation.
-/

namespace XConn

/-! ## Wire values (`wampproto::messages::types::Value`, external crate).

Modelled from the spec: the tagged union of JSON-like primitives; only the
variants the session code inspects are needed (the `acknowledge` option is
read through `Value::Bool`). -/

inductive Value where
  | null
  | bool (b : Bool)
  | int (i : Int)
  | str (s : String)
  deriving DecidableEq, Repr

abbrev Args := List Value
abbrev KwArgs := List (String × Value)

/-- `HashMap<String, Value>::get` on an options map. -/
def optGet (opts : KwArgs) (k : String) : Option Value :=
  (opts.find? (fun p => p.1 = k)).map Prod.snd

/-! ## Integer-keyed maps (Rust `HashMap<i64, T>`). -/

/-- `HashMap::get`. -/
def lookupI {α : Type} (m : List (Int × α)) (k : Int) : Option α :=
  (m.find? (fun p => p.1 = k)).map Prod.snd

/-- `HashMap::insert` (replaces an existing binding for the key). -/
def insertI {α : Type} (m : List (Int × α)) (k : Int) (v : α) : List (Int × α) :=
  if (m.find? (fun p => p.1 = k)).isSome then
    m.map (fun p => if p.1 = k then (k, v) else p)
  else
    m ++ [(k, v)]

/-- `HashMap::remove` (the key's binding is deleted; no-op when absent). -/
def removeI {α : Type} (m : List (Int × α)) (k : Int) : List (Int × α) :=
  m.filter (fun p => ¬ p.1 = k)

/-- `HashMap::contains_key`. -/
def containsI {α : Type} (m : List (Int × α)) (k : Int) : Bool :=
  (lookupI m k).isSome

/-! ## Response and payload types (`src/types.rs`, `src/common/types.rs`). -/

structure WampError where
  uri : String
  args : Option Args
  kwargs : Option KwArgs
  deriving DecidableEq, Repr

structure CallResponse where
  args : Option Args
  kwargs : Option KwArgs
  error : Option WampError
  deriving DecidableEq, Repr

structure RegisterResponse where
  registration_id : Int
  error : Option WampError
  deriving DecidableEq, Repr

structure SubscribeResponse where
  subscription_id : Int
  error : Option WampError
  deriving DecidableEq, Repr

structure PublishResponse where
  error : Option WampError
  deriving DecidableEq, Repr

/-- `crate::types::Invocation` (the value handed to a registered handler). -/
structure XInvocation where
  args : Option Args
  kwargs : Option KwArgs
  details : KwArgs
  deriving DecidableEq, Repr

/-- `crate::types::Event` (the value handed to an event handler). -/
structure XEvent where
  args : Option Args
  kwargs : Option KwArgs
  details : KwArgs
  deriving DecidableEq, Repr

/-- The body of a `Yield` produced by an invocation handler. -/
structure YieldBody where
  args : Option Args
  kwargs : Option KwArgs
  deriving DecidableEq, Repr

/-- Outcome of running a user invocation handler.  The source handler type
`fn(Invocation) -> Yield` is total at the type level, but the Rust call can
panic; `panic` models unwinding (the source installs no `catch_unwind`). -/
inductive HandlerOutcome where
  | panic
  | success (y : YieldBody)

/-- `RegisterFn` (`src/types.rs`, `src/sync/types.rs`). -/
abbrev RegisterFn := XInvocation → HandlerOutcome

/-- Outcome of running a user event handler (`fn(Event)`). -/
inductive EventOutcome where
  | panic
  | done

/-- `EventFn` (`src/types.rs`, `src/sync/types.rs`). -/
abbrev EventFn := XEvent → EventOutcome

/-! ## WAMP message-type codes (`wampproto::messages::*`, external crate).

Modelled from the spec: §6.1 wire-protocol table of numeric type codes. -/

def messageTypeGoodbye : Int := 6
def messageTypeError : Int := 8
def messageTypePublish : Int := 16
def messageTypePublished : Int := 17
def messageTypeSubscribe : Int := 32
def messageTypeSubscribed : Int := 33
def messageTypeUnsubscribe : Int := 34
def messageTypeUnsubscribed : Int := 35
def messageTypeEvent : Int := 36
def messageTypeCall : Int := 48
def messageTypeResult : Int := 50
def messageTypeRegister : Int := 64
def messageTypeRegistered : Int := 65
def messageTypeUnregister : Int := 66
def messageTypeUnregistered : Int := 67
def messageTypeInvocation : Int := 68
def messageTypeYield : Int := 70

/-- Inbound messages, the variants `process_incoming_message` dispatches on
(its `match msg.message_type()`); `other` covers the `_ => {}` arm.
For `error`, `origType` is the `error.message_type` field (the originating
request's type code). -/
inductive Message where
  | registered (request_id registration_id : Int)
  | unregistered (request_id : Int)
  | result (request_id : Int) (args : Option Args) (kwargs : Option KwArgs)
  | invocation (request_id registration_id : Int)
      (args : Option Args) (kwargs : Option KwArgs) (details : KwArgs)
  | subscribed (request_id subscription_id : Int)
  | unsubscribed (request_id : Int)
  | published (request_id : Int)
  | event (subscription_id : Int) (args : Option Args) (kwargs : Option KwArgs)
      (details : KwArgs)
  | error (origType request_id : Int) (uri : String) (args : Option Args)
      (kwargs : Option KwArgs)
  | goodbye
  | other (t : Int)

/-- Outbound frames the session writes to the peer (after protocol encoding). -/
inductive Frame where
  | callF (request_id : Int) (procedure : String)
  | publishF (request_id : Int) (topic : String)
  | registerF (request_id : Int) (procedure : String)
  | subscribeF (request_id : Int) (topic : String)
  | yieldF (request_id : Int) (args : Option Args) (kwargs : Option KwArgs)
  | errorF (origType request_id : Int) (uri : String) (args : Option Args)
      (kwargs : Option KwArgs)
  | goodbyeF (reason : String)
  deriving DecidableEq, Repr

/-! ## Session state (`struct State` in both session files). -/

/-- A pending map stores, per request id, the mpsc sender of the waiting
operation, modelled as an abstract channel id. -/
abbrev PendingMap := List (Int × Nat)

/-- `State` of `src/async_/session.rs` / `src/sync/session.rs` (identical). -/
structure SessionState where
  call_requests : PendingMap
  register_requests : PendingMap
  unregister_requests : PendingMap
  registrations : List (Int × RegisterFn)
  publish_requests : PendingMap
  subscribe_requests : PendingMap
  unsubscribe_requests : PendingMap
  subscriptions : List (Int × EventFn)
  goodbye_sent : Bool

/-- `State::default()`. -/
def SessionState.default : SessionState :=
  ⟨[], [], [], [], [], [], [], [], false⟩

/-- A value sent into a waiting operation's reply channel. -/
inductive Delivery where
  | callD (chan : Nat) (r : CallResponse)
  | registerD (chan : Nat) (r : RegisterResponse)
  | unregisterD (chan : Nat) (r : Option WampError)
  | subscribeD (chan : Nat) (r : SubscribeResponse)
  | unsubscribeD (chan : Nat) (r : Option WampError)
  | publishD (chan : Nat) (r : PublishResponse)
  deriving DecidableEq, Repr

/-- A detached handler task spawned by the dispatcher
(`tokio::spawn` / `thread::spawn`). -/
inductive SpawnedTask where
  | invocationTask (cb : RegisterFn) (request_id : Int) (inv : XInvocation)
  | eventTask (cb : EventFn) (ev : XEvent)

/-- Effect of one dispatcher step: the successor state, the values delivered
to reply channels, the handler tasks spawned, and whether the `goodbye_acked`
respectively `exit` signal was sent. -/
structure StepResult where
  state : SessionState
  deliveries : List Delivery
  spawned : List SpawnedTask
  goodbyeAck : Bool
  exitSignal : Bool

/-- The step with no effect beyond keeping the state. -/
def emptyStep (s : SessionState) : StepResult :=
  ⟨s, [], [], false, false⟩

/-- `Session::process_incoming_message` — identical in
`src/async_/session.rs:129-356` and `src/sync/session.rs:126-335` up to
`await`/lock idiom; embedded once.  Each `if let Some(cb) = map.remove(&id)`
becomes a lookup followed by `removeI` in the hit branch (a missed `remove`
leaves the Rust map unchanged). -/
def processIncomingMessage (msg : Message) (s : SessionState) : StepResult :=
  match msg with
  | .registered request_id registration_id =>
      match lookupI s.register_requests request_id with
      | some chan =>
          ⟨{ s with register_requests := removeI s.register_requests request_id },
            [.registerD chan ⟨registration_id, none⟩], [], false, false⟩
      | none => emptyStep s
  | .unregistered request_id =>
      match lookupI s.unregister_requests request_id with
      | some chan =>
          ⟨{ s with unregister_requests := removeI s.unregister_requests request_id },
            [.unregisterD chan none], [], false, false⟩
      | none => emptyStep s
  | .result request_id args kwargs =>
      match lookupI s.call_requests request_id with
      | some chan =>
          ⟨{ s with call_requests := removeI s.call_requests request_id },
            [.callD chan ⟨args, kwargs, none⟩], [], false, false⟩
      | none => emptyStep s
  | .invocation request_id registration_id args kwargs details =>
      match lookupI s.registrations registration_id with
      | some cb =>
          ⟨s, [], [.invocationTask cb request_id ⟨args, kwargs, details⟩], false, false⟩
      | none => emptyStep s
  | .subscribed request_id subscription_id =>
      match lookupI s.subscribe_requests request_id with
      | some chan =>
          ⟨{ s with subscribe_requests := removeI s.subscribe_requests request_id },
            [.subscribeD chan ⟨subscription_id, none⟩], [], false, false⟩
      | none => emptyStep s
  | .unsubscribed request_id =>
      match lookupI s.unsubscribe_requests request_id with
      | some chan =>
          ⟨{ s with unsubscribe_requests := removeI s.unsubscribe_requests request_id },
            [.unsubscribeD chan none], [], false, false⟩
      | none => emptyStep s
  | .published request_id =>
      match lookupI s.publish_requests request_id with
      | some chan =>
          ⟨{ s with publish_requests := removeI s.publish_requests request_id },
            [.publishD chan ⟨none⟩], [], false, false⟩
      | none => emptyStep s
  | .event subscription_id args kwargs details =>
      match lookupI s.subscriptions subscription_id with
      | some cb =>
          ⟨s, [], [.eventTask cb ⟨args, kwargs, details⟩], false, false⟩
      | none => emptyStep s
  | .error origType request_id uri args kwargs =>
      if origType = messageTypeCall then
        match lookupI s.call_requests request_id with
        | some chan =>
            ⟨{ s with call_requests := removeI s.call_requests request_id },
              [.callD chan ⟨none, none, some ⟨uri, args, kwargs⟩⟩], [], false, false⟩
        | none => emptyStep s
      else if origType = messageTypeRegister then
        match lookupI s.register_requests request_id with
        | some chan =>
            ⟨{ s with register_requests := removeI s.register_requests request_id },
              [.registerD chan ⟨0, some ⟨uri, args, kwargs⟩⟩], [], false, false⟩
        | none => emptyStep s
      else if origType = messageTypeUnregister then
        match lookupI s.unregister_requests request_id with
        | some chan =>
            ⟨{ s with unregister_requests := removeI s.unregister_requests request_id },
              [.unregisterD chan (some ⟨uri, args, kwargs⟩)], [], false, false⟩
        | none => emptyStep s
      else if origType = messageTypeSubscribe then
        match lookupI s.subscribe_requests request_id with
        | some chan =>
            ⟨{ s with subscribe_requests := removeI s.subscribe_requests request_id },
              [.subscribeD chan ⟨0, some ⟨uri, args, kwargs⟩⟩], [], false, false⟩
        | none => emptyStep s
      else if origType = messageTypeUnsubscribe then
        match lookupI s.unsubscribe_requests request_id with
        | some chan =>
            ⟨{ s with unsubscribe_requests := removeI s.unsubscribe_requests request_id },
              [.unsubscribeD chan (some ⟨uri, args, kwargs⟩)], [], false, false⟩
        | none => emptyStep s
      else if origType = messageTypePublish then
        match lookupI s.publish_requests request_id with
        | some chan =>
            ⟨{ s with publish_requests := removeI s.publish_requests request_id },
              [.publishD chan ⟨some ⟨uri, args, kwargs⟩⟩], [], false, false⟩
        | none => emptyStep s
      else
        emptyStep s
  | .goodbye =>
      ⟨s, [], [], s.goodbye_sent, true⟩
  | .other _ => emptyStep s

/-- Running a spawned invocation task
(`tokio::spawn(async move { let response = callback(inv); ... })`,
`src/async_/session.rs:186-206`, `src/sync/session.rs:179-199`): the frame the
task writes to the peer, `none` when the handler panics (unwinding aborts the
task before the `Yield` is built; the source catches nothing). -/
def runInvocationTask (cb : RegisterFn) (request_id : Int) (inv : XInvocation) :
    Option Frame :=
  match cb inv with
  | .panic => none
  | .success y => some (.yieldF request_id y.args y.kwargs)

/-- Running a spawned event task (`thread::spawn(move || { callback(xevent); })`):
the handler is invoked and nothing is ever written, whatever its outcome. -/
def runEventTask (cb : EventFn) (ev : XEvent) : Option Frame :=
  match cb ev with
  | .panic => none
  | .done => none

/-! ## The reader loop
(`tokio::spawn` body in `Session::new`, `src/async_/session.rs:95-115`,
`thread::spawn` body in `src/sync/session.rs:93-112`). -/

/-- One iteration's input: a successfully read-and-decoded frame, a decode
failure (`proto.receive` `Err`, which `break`s), or a read failure
(`peer.read` `Err`, which ends the `while let`). -/
inductive ReadEvent where
  | frame (m : Message)
  | decodeErr
  | readErr

/-- The reader loop over a finite prefix of inbound events, accumulating the
dispatcher's effects.  Note the source's `GOODBYE` arm does not `break`: the
loop keeps reading. -/
def readerLoop : List ReadEvent → SessionState → StepResult
  | [], s => emptyStep s
  | .readErr :: _, s => emptyStep s
  | .decodeErr :: _, s => emptyStep s
  | .frame m :: rest, s =>
      let r1 := processIncomingMessage m s
      let r2 := readerLoop rest r1.state
      ⟨r2.state, r1.deliveries ++ r2.deliveries, r1.spawned ++ r2.spawned,
        r1.goodbyeAck || r2.goodbyeAck, r1.exitSignal || r2.exitSignal⟩

/-! ## Public operations of the session. -/

/-- `CallRequest` (`src/types.rs` / `src/common/types.rs`). -/
structure CallRequestR where
  procedure : String
  options : KwArgs
  args : Args
  kwargs : KwArgs

/-- `PublishRequest`. -/
structure PublishRequestR where
  topic : String
  options : KwArgs
  args : Args
  kwargs : KwArgs

/-- `RegisterRequest` (carries the invocation handler as `callback`). -/
structure RegisterRequestR where
  procedure : String
  options : KwArgs
  callback : RegisterFn

/-- `SubscribeRequest` (carries the event handler as `callback`). -/
structure SubscribeRequestR where
  topic : String
  options : KwArgs
  callback : EventFn

/-- Which pending map an operation touches. -/
inductive PendingClass where
  | callC
  | registerC
  | unregisterC
  | subscribeC
  | unsubscribeC
  | publishC
  deriving DecidableEq, Repr

/-- The observable actions of one public operation, in program order. -/
inductive OpAction where
  | insertPending (c : PendingClass) (request_id : Int)
  | removePending (c : PendingClass) (request_id : Int)
  | wroteFrame (f : Frame)
  | awaitedReply
  | installedHandler (id : Int)
  deriving DecidableEq, Repr

/-- Result of one public operation: the state it leaves, the value returned to
the caller (`Except` for Rust's `Result<_, Error>`), and its action trace. -/
structure OpResult (α : Type) where
  state : SessionState
  result : Except String α
  trace : List OpAction

/-- `Session::call` (identical in `src/async_/session.rs:358-394` and
`src/sync/session.rs:337-373`).  `rid` is the fresh id from
`idgen.next_id()`, `chan` the fresh reply channel, `encodeOk` the outcome of
`proto.send_message`, `writeOk` of `peer.write`, and `reply` what
`receiver.recv()` yields (`none` = channel closed). -/
def callOp (s : SessionState) (rid : Int) (chan : Nat) (req : CallRequestR)
    (encodeOk writeOk : Bool) (reply : Option CallResponse) : OpResult CallResponse :=
  if encodeOk then
    let s1 := { s with call_requests := insertI s.call_requests rid chan }
    if writeOk then
      match reply with
      | some r =>
          ⟨s1, .ok r,
            [.insertPending .callC rid, .wroteFrame (.callF rid req.procedure),
              .awaitedReply]⟩
      | none =>
          ⟨s1, .error "call failed",
            [.insertPending .callC rid, .wroteFrame (.callF rid req.procedure),
              .awaitedReply]⟩
    else
      ⟨{ s1 with call_requests := removeI s1.call_requests rid },
        .error "failed to send message",
        [.insertPending .callC rid, .removePending .callC rid]⟩
  else
    ⟨s, .error "proto failed to parse message", []⟩

/-- The `acknowledge` check of `Session::publish`
(`if let Some(Value::Bool(acknowledge)) = msg.options.get("acknowledge")`). -/
def getAcknowledge (opts : KwArgs) : Bool :=
  match optGet opts "acknowledge" with
  | some (.bool b) => b
  | _ => false

/-- `Session::publish` (identical in `src/async_/session.rs:396-452` and
`src/sync/session.rs:375-430`). -/
def publishOp (s : SessionState) (rid : Int) (chan : Nat) (req : PublishRequestR)
    (encodeOk writeOk : Bool) (reply : Option PublishResponse) :
    OpResult (Option PublishResponse) :=
  if getAcknowledge req.options then
    if encodeOk then
      let s1 := { s with publish_requests := insertI s.publish_requests rid chan }
      if writeOk then
        match reply with
        | some r =>
            ⟨s1, .ok (some r),
              [.insertPending .publishC rid, .wroteFrame (.publishF rid req.topic),
                .awaitedReply]⟩
        | none =>
            ⟨s1, .error "publish failed",
              [.insertPending .publishC rid, .wroteFrame (.publishF rid req.topic),
                .awaitedReply]⟩
      else
        ⟨{ s1 with publish_requests := removeI s1.publish_requests rid },
          .error "failed to send message",
          [.insertPending .publishC rid, .removePending .publishC rid]⟩
    else
      ⟨s, .error "proto failed to parse message", []⟩
  else
    if encodeOk then
      if writeOk then
        ⟨s, .ok none, [.wroteFrame (.publishF rid req.topic)]⟩
      else
        ⟨s, .error "failed to send message", [.wroteFrame (.publishF rid req.topic)]⟩
    else
      ⟨s, .error "proto failed to parse message", []⟩

/-- `Session::register` of the sync session (`src/sync/session.rs:432-473`):
on a received reply it installs `response.registration_id → request.callback()`
into `registrations` (unconditionally, even for an error reply) before
returning. -/
def registerOpSync (s : SessionState) (rid : Int) (chan : Nat)
    (req : RegisterRequestR) (encodeOk writeOk : Bool)
    (reply : Option RegisterResponse) : OpResult RegisterResponse :=
  if encodeOk then
    let s1 := { s with register_requests := insertI s.register_requests rid chan }
    if writeOk then
      match reply with
      | some r =>
          ⟨{ s1 with registrations :=
                insertI s1.registrations r.registration_id req.callback },
            .ok r,
            [.insertPending .registerC rid,
              .wroteFrame (.registerF rid req.procedure), .awaitedReply,
              .installedHandler r.registration_id]⟩
      | none =>
          ⟨s1, .error "register failed",
            [.insertPending .registerC rid,
              .wroteFrame (.registerF rid req.procedure), .awaitedReply]⟩
    else
      ⟨{ s1 with register_requests := removeI s1.register_requests rid },
        .error "failed to send message",
        [.insertPending .registerC rid, .removePending .registerC rid]⟩
  else
    ⟨s, .error "proto failed to parse message", []⟩

/-- `Session::register` of the async session (`src/async_/session.rs:454-489`):
the received reply is returned as-is; `registrations` is never touched and
`request.callback()` is never read. -/
def registerOpAsync (s : SessionState) (rid : Int) (chan : Nat)
    (req : RegisterRequestR) (encodeOk writeOk : Bool)
    (reply : Option RegisterResponse) : OpResult RegisterResponse :=
  if encodeOk then
    let s1 := { s with register_requests := insertI s.register_requests rid chan }
    if writeOk then
      match reply with
      | some r =>
          ⟨s1, .ok r,
            [.insertPending .registerC rid,
              .wroteFrame (.registerF rid req.procedure), .awaitedReply]⟩
      | none =>
          ⟨s1, .error "register failed",
            [.insertPending .registerC rid,
              .wroteFrame (.registerF rid req.procedure), .awaitedReply]⟩
    else
      ⟨{ s1 with register_requests := removeI s1.register_requests rid },
        .error "failed to send message",
        [.insertPending .registerC rid, .removePending .registerC rid]⟩
  else
    ⟨s, .error "proto failed to parse message", []⟩

/-- `Session::subscribe` of the sync session (`src/sync/session.rs:475-515`):
on a received reply it installs `response.subscription_id → request.callback()`
into `subscriptions` (unconditionally) before returning. -/
def subscribeOpSync (s : SessionState) (rid : Int) (chan : Nat)
    (req : SubscribeRequestR) (encodeOk writeOk : Bool)
    (reply : Option SubscribeResponse) : OpResult SubscribeResponse :=
  if encodeOk then
    let s1 := { s with subscribe_requests := insertI s.subscribe_requests rid chan }
    if writeOk then
      match reply with
      | some r =>
          ⟨{ s1 with subscriptions :=
                insertI s1.subscriptions r.subscription_id req.callback },
            .ok r,
            [.insertPending .subscribeC rid,
              .wroteFrame (.subscribeF rid req.topic), .awaitedReply,
              .installedHandler r.subscription_id]⟩
      | none =>
          ⟨s1, .error "subscribe failed",
            [.insertPending .subscribeC rid,
              .wroteFrame (.subscribeF rid req.topic), .awaitedReply]⟩
    else
      ⟨{ s1 with subscribe_requests := removeI s1.subscribe_requests rid },
        .error "failed to send message",
        [.insertPending .subscribeC rid, .removePending .subscribeC rid]⟩
  else
    ⟨s, .error "proto failed to parse message", []⟩

/-- `Session::subscribe` of the async session (`src/async_/session.rs:491-525`):
the received reply is returned as-is; `subscriptions` is never touched. -/
def subscribeOpAsync (s : SessionState) (rid : Int) (chan : Nat)
    (req : SubscribeRequestR) (encodeOk writeOk : Bool)
    (reply : Option SubscribeResponse) : OpResult SubscribeResponse :=
  if encodeOk then
    let s1 := { s with subscribe_requests := insertI s.subscribe_requests rid chan }
    if writeOk then
      match reply with
      | some r =>
          ⟨s1, .ok r,
            [.insertPending .subscribeC rid,
              .wroteFrame (.subscribeF rid req.topic), .awaitedReply]⟩
      | none =>
          ⟨s1, .error "subscribe failed",
            [.insertPending .subscribeC rid,
              .wroteFrame (.subscribeF rid req.topic), .awaitedReply]⟩
    else
      ⟨{ s1 with subscribe_requests := removeI s1.subscribe_requests rid },
        .error "failed to send message",
        [.insertPending .subscribeC rid, .removePending .subscribeC rid]⟩
  else
    ⟨s, .error "proto failed to parse message", []⟩

/-- The public methods of `impl Session` in `src/async_/session.rs`
(`pub fn` / `pub async fn` items, in source order). -/
def asyncSessionPublicOps : List String :=
  ["new", "call", "publish", "register", "subscribe", "leave", "wait_disconnect"]

/-- The public methods of `impl Session` in `src/sync/session.rs`. -/
def syncSessionPublicOps : List String :=
  ["new", "call", "publish", "register", "subscribe", "leave", "wait_disconnect"]

/-! ## RawSocket inbound framing (`src/async_/rawsocket.rs:27-46`). -/

/-- One `AsyncReadExt::read(&mut buf)` call against a TCP stream whose
available data arrives as `chunks`: it returns at most one chunk's worth of
bytes, at most `n` (the buffer size), without waiting for the buffer to fill.
A zero-length buffer, or an exhausted stream, returns no bytes. -/
def osRead (n : Nat) (chunks : List (List Nat)) : List Nat × List (List Nat) :=
  if n = 0 then ([], chunks)
  else
    match chunks with
    | [] => ([], [])
    | c :: rest =>
        if c.length ≤ n then (c, rest)
        else (c.take n, c.drop n :: rest)

/-- `wampproto::transports::rawsocket::receive_message_header` (external
crate).  Modelled from the spec: a 4-byte header, "1 type byte = `WAMP`,
3 length bytes, big-endian"; the `WAMP` message type byte is 0.  Returns the
declared payload length. -/
def receiveMessageHeader (buf : List Nat) : Option Nat :=
  match buf with
  | [t, a, b, c] => if t = 0 then some (a * 65536 + b * 256 + c) else none
  | _ => none

/-- `RawSocketPeer::read` (`src/async_/rawsocket.rs:27-46`): one `read` call
into a zero-initialised 4-byte buffer (its byte count is discarded), header
parse, then one `read` call into a zero-initialised `length`-byte buffer whose
entire contents are returned.  Bytes the single `read` did not fill remain
zero. -/
def rawSocketRead (chunks : List (List Nat)) : Option (List Nat) :=
  let headRes := osRead 4 chunks
  let headerBuf := headRes.1 ++ List.replicate (4 - headRes.1.length) 0
  match receiveMessageHeader headerBuf with
  | none => none
  | some len =>
      let payloadRes := osRead len headRes.2
      some (payloadRes.1 ++ List.replicate (len - payloadRes.1.length) 0)

/-- Modelled from the spec: the required inbound behaviour — "read 4 header
bytes, parse length, read exactly that many payload bytes", i.e. read-exactly
over the byte stream regardless of how it is chunked. -/
def specRawSocketRead (bytes : List Nat) : Option (List Nat) :=
  match bytes with
  | t :: a :: b :: c :: rest =>
      if t = 0 then
        let len := a * 65536 + b * 256 + c
        if len ≤ rest.length then some (rest.take len) else none
      else none
  | _ => none

/-! ## Helper lemmas about the map embedding. -/

theorem find_none_of_lookupI_none {α : Type} {m : List (Int × α)} {k : Int}
    (h : lookupI m k = none) : m.find? (fun p => p.1 = k) = none := by
  simp only [lookupI, Option.map_eq_none'] at h
  exact h

theorem removeI_insertI_of_lookupI_none {α : Type} (m : List (Int × α)) (k : Int)
    (v : α) (h : lookupI m k = none) : removeI (insertI m k v) k = m := by
  have hf := find_none_of_lookupI_none h
  have hmem : ∀ p ∈ m, ¬ p.1 = k := by
    intro p hp
    have := List.find?_eq_none.mp hf p hp
    simpa using this
  simp only [insertI, hf, Option.isSome_none, Bool.false_eq_true, if_false, removeI,
    List.filter_append]
  have h1 : m.filter (fun p => decide ¬(p.1 = k)) = m := by
    apply List.filter_eq_self.mpr
    intro p hp
    simpa using hmem p hp
  have h2 : List.filter (fun p => decide ¬(p.1 = k)) [(k, v)] = [] := by
    simp
  rw [h1, h2, List.append_nil]

/-! ## Witness fixtures: concrete states and handlers used to instantiate the
hypothesis-bearing theorems. -/

/-- A state with request id 3 pending in every pending map (channel 1). -/
def sW : SessionState :=
  ⟨[(3, 1)], [(3, 1)], [(3, 1)], [], [(3, 1)], [(3, 1)], [(3, 1)], [], false⟩

/-- An invocation handler that always panics. -/
def panicHandler : RegisterFn := fun _ => .panic

/-- An invocation handler that yields an empty payload. -/
def okHandler : RegisterFn := fun _ => .success ⟨none, none⟩

/-- An event handler that returns normally. -/
def okEventHandler : EventFn := fun _ => .done

/-- A sample invocation payload. -/
def invEx : XInvocation := ⟨none, none, []⟩

/-! ## Claims. -/

/-- C3: an inbound ERROR whose originating type is one of CALL, REGISTER,
UNREGISTER, SUBSCRIBE, UNSUBSCRIBE, PUBLISH and whose request id is pending in
the corresponding map removes exactly that entry from exactly that map and
delivers to its waiter a response whose error field carries the frame's uri,
args and kwargs, touching nothing else; an ERROR with any other originating
type leaves all session state unchanged. -/
theorem error_dispatch_pops_matching_map :
    (∀ (s : SessionState) (rid : Int) (chan : Nat) (uri : String)
        (a : Option Args) (k : Option KwArgs),
      lookupI s.call_requests rid = some chan →
      processIncomingMessage (.error messageTypeCall rid uri a k) s =
        ⟨{ s with call_requests := removeI s.call_requests rid },
          [.callD chan ⟨none, none, some ⟨uri, a, k⟩⟩], [], false, false⟩) ∧
    (∀ (s : SessionState) (rid : Int) (chan : Nat) (uri : String)
        (a : Option Args) (k : Option KwArgs),
      lookupI s.register_requests rid = some chan →
      processIncomingMessage (.error messageTypeRegister rid uri a k) s =
        ⟨{ s with register_requests := removeI s.register_requests rid },
          [.registerD chan ⟨0, some ⟨uri, a, k⟩⟩], [], false, false⟩) ∧
    (∀ (s : SessionState) (rid : Int) (chan : Nat) (uri : String)
        (a : Option Args) (k : Option KwArgs),
      lookupI s.unregister_requests rid = some chan →
      processIncomingMessage (.error messageTypeUnregister rid uri a k) s =
        ⟨{ s with unregister_requests := removeI s.unregister_requests rid },
          [.unregisterD chan (some ⟨uri, a, k⟩)], [], false, false⟩) ∧
    (∀ (s : SessionState) (rid : Int) (chan : Nat) (uri : String)
        (a : Option Args) (k : Option KwArgs),
      lookupI s.subscribe_requests rid = some chan →
      processIncomingMessage (.error messageTypeSubscribe rid uri a k) s =
        ⟨{ s with subscribe_requests := removeI s.subscribe_requests rid },
          [.subscribeD chan ⟨0, some ⟨uri, a, k⟩⟩], [], false, false⟩) ∧
    (∀ (s : SessionState) (rid : Int) (chan : Nat) (uri : String)
        (a : Option Args) (k : Option KwArgs),
      lookupI s.unsubscribe_requests rid = some chan →
      processIncomingMessage (.error messageTypeUnsubscribe rid uri a k) s =
        ⟨{ s with unsubscribe_requests := removeI s.unsubscribe_requests rid },
          [.unsubscribeD chan (some ⟨uri, a, k⟩)], [], false, false⟩) ∧
    (∀ (s : SessionState) (rid : Int) (chan : Nat) (uri : String)
        (a : Option Args) (k : Option KwArgs),
      lookupI s.publish_requests rid = some chan →
      processIncomingMessage (.error messageTypePublish rid uri a k) s =
        ⟨{ s with publish_requests := removeI s.publish_requests rid },
          [.publishD chan ⟨some ⟨uri, a, k⟩⟩], [], false, false⟩) ∧
    (∀ (s : SessionState) (t rid : Int) (uri : String)
        (a : Option Args) (k : Option KwArgs),
      t ∉ ([messageTypeCall, messageTypeRegister, messageTypeUnregister,
            messageTypeSubscribe, messageTypeUnsubscribe,
            messageTypePublish] : List Int) →
      processIncomingMessage (.error t rid uri a k) s = emptyStep s) := by
  refine ⟨?_, ?_, ?_, ?_, ?_, ?_, ?_⟩
  · intro s rid chan uri a k h
    simp [processIncomingMessage, messageTypeCall, messageTypeRegister,
      messageTypeUnregister, messageTypeSubscribe, messageTypeUnsubscribe,
      messageTypePublish, h]
  · intro s rid chan uri a k h
    simp [processIncomingMessage, messageTypeCall, messageTypeRegister,
      messageTypeUnregister, messageTypeSubscribe, messageTypeUnsubscribe,
      messageTypePublish, h]
  · intro s rid chan uri a k h
    simp [processIncomingMessage, messageTypeCall, messageTypeRegister,
      messageTypeUnregister, messageTypeSubscribe, messageTypeUnsubscribe,
      messageTypePublish, h]
  · intro s rid chan uri a k h
    simp [processIncomingMessage, messageTypeCall, messageTypeRegister,
      messageTypeUnregister, messageTypeSubscribe, messageTypeUnsubscribe,
      messageTypePublish, h]
  · intro s rid chan uri a k h
    simp [processIncomingMessage, messageTypeCall, messageTypeRegister,
      messageTypeUnregister, messageTypeSubscribe, messageTypeUnsubscribe,
      messageTypePublish, h]
  · intro s rid chan uri a k h
    simp [processIncomingMessage, messageTypeCall, messageTypeRegister,
      messageTypeUnregister, messageTypeSubscribe, messageTypeUnsubscribe,
      messageTypePublish, h]
  · intro s t rid uri a k h
    simp only [List.mem_cons, List.not_mem_nil, or_false, not_or,
      messageTypeCall, messageTypeRegister, messageTypeUnregister,
      messageTypeSubscribe, messageTypeUnsubscribe, messageTypePublish] at h
    obtain ⟨h1, h2, h3, h4, h5, h6⟩ := h
    simp [processIncomingMessage, messageTypeCall, messageTypeRegister,
      messageTypeUnregister, messageTypeSubscribe, messageTypeUnsubscribe,
      messageTypePublish, h1, h2, h3, h4, h5, h6]

/-- Witness for `error_dispatch_pops_matching_map` at the concrete state `sW`
(request id 3 pending everywhere, channel 1). -/
theorem error_dispatch_pops_matching_map_witness :
    processIncomingMessage (.error messageTypeCall 3 "e" none none) sW =
      ⟨{ sW with call_requests := removeI sW.call_requests 3 },
        [.callD 1 ⟨none, none, some ⟨"e", none, none⟩⟩], [], false, false⟩ ∧
    processIncomingMessage (.error messageTypeRegister 3 "e" none none) sW =
      ⟨{ sW with register_requests := removeI sW.register_requests 3 },
        [.registerD 1 ⟨0, some ⟨"e", none, none⟩⟩], [], false, false⟩ ∧
    processIncomingMessage (.error messageTypeUnregister 3 "e" none none) sW =
      ⟨{ sW with unregister_requests := removeI sW.unregister_requests 3 },
        [.unregisterD 1 (some ⟨"e", none, none⟩)], [], false, false⟩ ∧
    processIncomingMessage (.error messageTypeSubscribe 3 "e" none none) sW =
      ⟨{ sW with subscribe_requests := removeI sW.subscribe_requests 3 },
        [.subscribeD 1 ⟨0, some ⟨"e", none, none⟩⟩], [], false, false⟩ ∧
    processIncomingMessage (.error messageTypeUnsubscribe 3 "e" none none) sW =
      ⟨{ sW with unsubscribe_requests := removeI sW.unsubscribe_requests 3 },
        [.unsubscribeD 1 (some ⟨"e", none, none⟩)], [], false, false⟩ ∧
    processIncomingMessage (.error messageTypePublish 3 "e" none none) sW =
      ⟨{ sW with publish_requests := removeI sW.publish_requests 3 },
        [.publishD 1 ⟨some ⟨"e", none, none⟩⟩], [], false, false⟩ ∧
    processIncomingMessage (.error 99 3 "e" none none) sW = emptyStep sW :=
  ⟨error_dispatch_pops_matching_map.1 sW 3 1 "e" none none rfl,
   error_dispatch_pops_matching_map.2.1 sW 3 1 "e" none none rfl,
   error_dispatch_pops_matching_map.2.2.1 sW 3 1 "e" none none rfl,
   error_dispatch_pops_matching_map.2.2.2.1 sW 3 1 "e" none none rfl,
   error_dispatch_pops_matching_map.2.2.2.2.1 sW 3 1 "e" none none rfl,
   error_dispatch_pops_matching_map.2.2.2.2.2.1 sW 3 1 "e" none none rfl,
   error_dispatch_pops_matching_map.2.2.2.2.2.2 sW 99 3 "e" none none (by decide)⟩

/-- C9: an inbound RESULT, or an ERROR of any recognised originating type,
whose request id is not present in the corresponding pending map changes no
pending map, no handler registry and no lifecycle signal, and delivers
nothing. -/
theorem unsolicited_reply_is_dropped :
    (∀ (s : SessionState) (rid : Int) (a : Option Args) (k : Option KwArgs),
      lookupI s.call_requests rid = none →
      processIncomingMessage (.result rid a k) s = emptyStep s) ∧
    (∀ (s : SessionState) (rid : Int) (uri : String) (a : Option Args)
        (k : Option KwArgs),
      lookupI s.call_requests rid = none →
      processIncomingMessage (.error messageTypeCall rid uri a k) s = emptyStep s) ∧
    (∀ (s : SessionState) (rid : Int) (uri : String) (a : Option Args)
        (k : Option KwArgs),
      lookupI s.register_requests rid = none →
      processIncomingMessage (.error messageTypeRegister rid uri a k) s = emptyStep s) ∧
    (∀ (s : SessionState) (rid : Int) (uri : String) (a : Option Args)
        (k : Option KwArgs),
      lookupI s.unregister_requests rid = none →
      processIncomingMessage (.error messageTypeUnregister rid uri a k) s = emptyStep s) ∧
    (∀ (s : SessionState) (rid : Int) (uri : String) (a : Option Args)
        (k : Option KwArgs),
      lookupI s.subscribe_requests rid = none →
      processIncomingMessage (.error messageTypeSubscribe rid uri a k) s = emptyStep s) ∧
    (∀ (s : SessionState) (rid : Int) (uri : String) (a : Option Args)
        (k : Option KwArgs),
      lookupI s.unsubscribe_requests rid = none →
      processIncomingMessage (.error messageTypeUnsubscribe rid uri a k) s = emptyStep s) ∧
    (∀ (s : SessionState) (rid : Int) (uri : String) (a : Option Args)
        (k : Option KwArgs),
      lookupI s.publish_requests rid = none →
      processIncomingMessage (.error messageTypePublish rid uri a k) s = emptyStep s) := by
  refine ⟨?_, ?_, ?_, ?_, ?_, ?_, ?_⟩
  · intro s rid a k h
    simp [processIncomingMessage, h]
  all_goals
    intro s rid uri a k h
    simp [processIncomingMessage, messageTypeCall, messageTypeRegister,
      messageTypeUnregister, messageTypeSubscribe, messageTypeUnsubscribe,
      messageTypePublish, h]

/-- Witness for `unsolicited_reply_is_dropped`: request id 9 is pending
nowhere in `sW`. -/
theorem unsolicited_reply_is_dropped_witness :
    processIncomingMessage (.result 9 none none) sW = emptyStep sW ∧
    processIncomingMessage (.error messageTypeCall 9 "e" none none) sW = emptyStep sW ∧
    processIncomingMessage (.error messageTypeRegister 9 "e" none none) sW = emptyStep sW ∧
    processIncomingMessage (.error messageTypeUnregister 9 "e" none none) sW = emptyStep sW ∧
    processIncomingMessage (.error messageTypeSubscribe 9 "e" none none) sW = emptyStep sW ∧
    processIncomingMessage (.error messageTypeUnsubscribe 9 "e" none none) sW = emptyStep sW ∧
    processIncomingMessage (.error messageTypePublish 9 "e" none none) sW = emptyStep sW :=
  ⟨unsolicited_reply_is_dropped.1 sW 9 none none rfl,
   unsolicited_reply_is_dropped.2.1 sW 9 "e" none none rfl,
   unsolicited_reply_is_dropped.2.2.1 sW 9 "e" none none rfl,
   unsolicited_reply_is_dropped.2.2.2.1 sW 9 "e" none none rfl,
   unsolicited_reply_is_dropped.2.2.2.2.1 sW 9 "e" none none rfl,
   unsolicited_reply_is_dropped.2.2.2.2.2.1 sW 9 "e" none none rfl,
   unsolicited_reply_is_dropped.2.2.2.2.2.2 sW 9 "e" none none rfl⟩

/-! Further fixtures for the remaining claims. -/

/-- A call request fixture. -/
def callReqEx : CallRequestR := ⟨"io.xconn.echo", [], [], []⟩

/-- A publish request without the `acknowledge` option. -/
def pubReqPlain : PublishRequestR := ⟨"t", [], [], []⟩

/-- A publish request with `acknowledge = true`. -/
def pubReqAck : PublishRequestR := ⟨"t", [("acknowledge", .bool true)], [], []⟩

/-- A register request fixture carrying `okHandler`. -/
def regReqEx : RegisterRequestR := ⟨"io.xconn.echo", [], okHandler⟩

/-- A subscribe request fixture carrying `okEventHandler`. -/
def subReqEx : SubscribeRequestR := ⟨"io.xconn.topic", [], okEventHandler⟩

/-- A state with exactly call request 1 pending on channel 5. -/
def s5 : SessionState := { SessionState.default with call_requests := [(1, 5)] }

/-- C4: a publish without `acknowledge = true` never inserts into the
publishes pending map and, once the write succeeds, returns the no-reply
result whatever the router does; a publish with `acknowledge = true` inserts
the pending entry before writing and its success result is exactly the reply
delivered into the channel — and such a reply only ever comes from a
PUBLISHED or ERROR(type=PUBLISH) frame. -/
theorem publish_acknowledge_semantics :
    (∀ (s : SessionState) (rid : Int) (chan : Nat) (req : PublishRequestR)
        (encodeOk writeOk : Bool) (reply : Option PublishResponse),
      getAcknowledge req.options = false →
      (publishOp s rid chan req encodeOk writeOk reply).state = s ∧
      (∀ (c : PendingClass) (r : Int),
        OpAction.insertPending c r ∉
          (publishOp s rid chan req encodeOk writeOk reply).trace) ∧
      (encodeOk = true → writeOk = true →
        publishOp s rid chan req encodeOk writeOk reply =
          ⟨s, .ok none, [.wroteFrame (.publishF rid req.topic)]⟩)) ∧
    (∀ (s : SessionState) (rid : Int) (chan : Nat) (req : PublishRequestR)
        (writeOk : Bool) (reply : Option PublishResponse),
      getAcknowledge req.options = true →
      (publishOp s rid chan req true writeOk reply).trace.head? =
        some (.insertPending .publishC rid) ∧
      (writeOk = true →
        (publishOp s rid chan req true writeOk reply).state.publish_requests =
          insertI s.publish_requests rid chan ∧
        (publishOp s rid chan req true writeOk reply).trace =
          [.insertPending .publishC rid, .wroteFrame (.publishF rid req.topic),
            .awaitedReply] ∧
        ∀ (r : PublishResponse),
          (publishOp s rid chan req true writeOk reply).result = .ok (some r) ↔
            reply = some r)) ∧
    (∀ (m : Message) (s : SessionState) (chan : Nat) (r : PublishResponse),
      Delivery.publishD chan r ∈ (processIncomingMessage m s).deliveries →
      (∃ rid, m = .published rid) ∨
        ∃ rid uri a k, m = .error messageTypePublish rid uri a k) := by
  refine ⟨?_, ?_, ?_⟩
  · intro s rid chan req encodeOk writeOk reply h
    cases encodeOk <;> cases writeOk <;> simp [publishOp, h]
  · intro s rid chan req writeOk reply h
    cases writeOk
    · cases reply <;> simp [publishOp, h]
    · cases reply <;> simp [publishOp, h]
  · intro m s chan r hmem
    cases m with
    | published rid => exact Or.inl ⟨rid, rfl⟩
    | error t rid uri a k =>
        simp only [processIncomingMessage] at hmem
        split_ifs at hmem with h1 h2 h3 h4 h5 h6
        · split at hmem <;> simp [emptyStep] at hmem
        · split at hmem <;> simp [emptyStep] at hmem
        · split at hmem <;> simp [emptyStep] at hmem
        · split at hmem <;> simp [emptyStep] at hmem
        · split at hmem <;> simp [emptyStep] at hmem
        · subst h6; exact Or.inr ⟨rid, uri, a, k, rfl⟩
        · simp [emptyStep] at hmem
    | registered a b =>
        simp only [processIncomingMessage] at hmem
        split at hmem <;> simp [emptyStep] at hmem
    | unregistered a =>
        simp only [processIncomingMessage] at hmem
        split at hmem <;> simp [emptyStep] at hmem
    | result a b c =>
        simp only [processIncomingMessage] at hmem
        split at hmem <;> simp [emptyStep] at hmem
    | invocation a b c d e =>
        simp only [processIncomingMessage] at hmem
        split at hmem <;> simp [emptyStep] at hmem
    | subscribed a b =>
        simp only [processIncomingMessage] at hmem
        split at hmem <;> simp [emptyStep] at hmem
    | unsubscribed a =>
        simp only [processIncomingMessage] at hmem
        split at hmem <;> simp [emptyStep] at hmem
    | event a b c d =>
        simp only [processIncomingMessage] at hmem
        split at hmem <;> simp [emptyStep] at hmem
    | goodbye => simp [processIncomingMessage] at hmem
    | other t => simp [processIncomingMessage, emptyStep] at hmem

/-- Witness for `publish_acknowledge_semantics` at concrete requests. -/
theorem publish_acknowledge_semantics_witness :
    (publishOp sW 4 2 pubReqPlain true true none).state = sW ∧
    publishOp sW 4 2 pubReqPlain true true none =
      ⟨sW, .ok none, [.wroteFrame (.publishF 4 "t")]⟩ ∧
    (publishOp sW 4 2 pubReqAck true true (some ⟨none⟩)).trace.head? =
      some (.insertPending .publishC 4) ∧
    ((∃ rid, (Message.published 3) = .published rid) ∨
      ∃ rid uri a k, (Message.published 3) = .error messageTypePublish rid uri a k) :=
  ⟨(publish_acknowledge_semantics.1 sW 4 2 pubReqPlain true true none rfl).1,
   (publish_acknowledge_semantics.1 sW 4 2 pubReqPlain true true none rfl).2.2 rfl rfl,
   (publish_acknowledge_semantics.2.1 sW 4 2 pubReqAck true (some ⟨none⟩) rfl).1,
   publish_acknowledge_semantics.2.2 (.published 3) sW 1 ⟨none⟩ (by decide)⟩

/-- C8: when the peer write fails after the pending entry was inserted, each
of call, register (both variants), subscribe (both variants) and acknowledged
publish removes exactly the just-inserted entry and returns an error, leaving
the pending maps as before the operation (the fresh request id was not
previously pending). -/
theorem write_failure_restores_pending_maps :
    (∀ (s : SessionState) (rid : Int) (chan : Nat) (req : CallRequestR)
        (reply : Option CallResponse),
      lookupI s.call_requests rid = none →
      (callOp s rid chan req true false reply).state = s ∧
      (callOp s rid chan req true false reply).result =
        .error "failed to send message") ∧
    (∀ (s : SessionState) (rid : Int) (chan : Nat) (req : RegisterRequestR)
        (reply : Option RegisterResponse),
      lookupI s.register_requests rid = none →
      (registerOpAsync s rid chan req true false reply).state = s ∧
      (registerOpAsync s rid chan req true false reply).result =
        .error "failed to send message") ∧
    (∀ (s : SessionState) (rid : Int) (chan : Nat) (req : RegisterRequestR)
        (reply : Option RegisterResponse),
      lookupI s.register_requests rid = none →
      (registerOpSync s rid chan req true false reply).state = s ∧
      (registerOpSync s rid chan req true false reply).result =
        .error "failed to send message") ∧
    (∀ (s : SessionState) (rid : Int) (chan : Nat) (req : SubscribeRequestR)
        (reply : Option SubscribeResponse),
      lookupI s.subscribe_requests rid = none →
      (subscribeOpAsync s rid chan req true false reply).state = s ∧
      (subscribeOpAsync s rid chan req true false reply).result =
        .error "failed to send message") ∧
    (∀ (s : SessionState) (rid : Int) (chan : Nat) (req : SubscribeRequestR)
        (reply : Option SubscribeResponse),
      lookupI s.subscribe_requests rid = none →
      (subscribeOpSync s rid chan req true false reply).state = s ∧
      (subscribeOpSync s rid chan req true false reply).result =
        .error "failed to send message") ∧
    (∀ (s : SessionState) (rid : Int) (chan : Nat) (req : PublishRequestR)
        (reply : Option PublishResponse),
      getAcknowledge req.options = true →
      lookupI s.publish_requests rid = none →
      (publishOp s rid chan req true false reply).state = s ∧
      (publishOp s rid chan req true false reply).result =
        .error "failed to send message") := by
  refine ⟨?_, ?_, ?_, ?_, ?_, ?_⟩
  · intro s rid chan req reply h
    have hr := removeI_insertI_of_lookupI_none s.call_requests rid chan h
    cases s
    exact ⟨by simp [callOp, hr], by simp [callOp]⟩
  · intro s rid chan req reply h
    have hr := removeI_insertI_of_lookupI_none s.register_requests rid chan h
    cases s
    exact ⟨by simp [registerOpAsync, hr], by simp [registerOpAsync]⟩
  · intro s rid chan req reply h
    have hr := removeI_insertI_of_lookupI_none s.register_requests rid chan h
    cases s
    exact ⟨by simp [registerOpSync, hr], by simp [registerOpSync]⟩
  · intro s rid chan req reply h
    have hr := removeI_insertI_of_lookupI_none s.subscribe_requests rid chan h
    cases s
    exact ⟨by simp [subscribeOpAsync, hr], by simp [subscribeOpAsync]⟩
  · intro s rid chan req reply h
    have hr := removeI_insertI_of_lookupI_none s.subscribe_requests rid chan h
    cases s
    exact ⟨by simp [subscribeOpSync, hr], by simp [subscribeOpSync]⟩
  · intro s rid chan req reply hack h
    have hr := removeI_insertI_of_lookupI_none s.publish_requests rid chan h
    cases s
    exact ⟨by simp [publishOp, hack, hr], by simp [publishOp, hack]⟩

/-- Witness for `write_failure_restores_pending_maps`: request id 9 is fresh
in `sW`. -/
theorem write_failure_restores_pending_maps_witness :
    (callOp sW 9 2 callReqEx true false none).state = sW ∧
    (registerOpAsync sW 9 2 regReqEx true false none).state = sW ∧
    (registerOpSync sW 9 2 regReqEx true false none).state = sW ∧
    (subscribeOpAsync sW 9 2 subReqEx true false none).state = sW ∧
    (subscribeOpSync sW 9 2 subReqEx true false none).state = sW ∧
    (publishOp sW 9 2 pubReqAck true false none).state = sW :=
  ⟨(write_failure_restores_pending_maps.1 sW 9 2 callReqEx none rfl).1,
   (write_failure_restores_pending_maps.2.1 sW 9 2 regReqEx none rfl).1,
   (write_failure_restores_pending_maps.2.2.1 sW 9 2 regReqEx none rfl).1,
   (write_failure_restores_pending_maps.2.2.2.1 sW 9 2 subReqEx none rfl).1,
   (write_failure_restores_pending_maps.2.2.2.2.1 sW 9 2 subReqEx none rfl).1,
   (write_failure_restores_pending_maps.2.2.2.2.2 sW 9 2 pubReqAck none rfl rfl).1⟩

/-- C5 (counterexample): the reader does not terminate on GOODBYE — with
inbound `[GOODBYE, RESULT(1)]` and call request 1 pending, the RESULT frame is
still dispatched after the GOODBYE was processed (its reply is delivered and
the pending entry removed), refuting "the read loop terminates, so the reader
never reads or dispatches another frame after processing a GOODBYE". -/
theorem frame_after_goodbye_still_dispatched :
    (readerLoop [.frame .goodbye, .frame (.result 1 none none)] s5).deliveries =
      [.callD 5 ⟨none, none, none⟩] ∧
    (readerLoop [.frame .goodbye, .frame (.result 1 none none)] s5).state.call_requests
      = [] ∧
    (readerLoop [.frame .goodbye, .frame (.result 1 none none)] s5).exitSignal
      = true := by
  refine ⟨?_, ?_, ?_⟩ <;> rfl

/-- C5 (amended): on GOODBYE the dispatcher sends `goodbye_acked` exactly when
`goodbye_sent` holds and always sends `exit`, leaving the state unchanged; but
the read loop continues — the events after a GOODBYE are processed exactly as
they would be without it — and terminates only on a read or decode error. -/
theorem goodbye_signals_but_loop_continues :
    (∀ s : SessionState,
      processIncomingMessage .goodbye s = ⟨s, [], [], s.goodbye_sent, true⟩) ∧
    (∀ (evs : List ReadEvent) (s : SessionState),
      readerLoop (.frame .goodbye :: evs) s =
        ⟨(readerLoop evs s).state, (readerLoop evs s).deliveries,
          (readerLoop evs s).spawned,
          s.goodbye_sent || (readerLoop evs s).goodbyeAck, true⟩) ∧
    (∀ (evs : List ReadEvent) (s : SessionState),
      readerLoop (.readErr :: evs) s = emptyStep s) ∧
    (∀ (evs : List ReadEvent) (s : SessionState),
      readerLoop (.decodeErr :: evs) s = emptyStep s) := by
  refine ⟨fun s => rfl, ?_, fun evs s => rfl, fun evs s => rfl⟩
  intro evs s
  simp [readerLoop, processIncomingMessage]

/-- C6 (counterexample): a panicking invocation handler's task writes nothing
at all — in particular no `ERROR(type=INVOCATION, uri="wamp.error.runtime_error")`
frame is produced for its request id. -/
theorem panicking_handler_task_writes_no_error_frame :
    runInvocationTask panicHandler 2 invEx = none ∧
    runInvocationTask panicHandler 2 invEx ≠
      some (.errorF messageTypeInvocation 2 "wamp.error.runtime_error" none none) :=
  ⟨rfl, by decide⟩

/-- C6 (amended): handler failure is not caught anywhere — a panicking
invocation handler's task aborts without writing any frame, a successful one
writes exactly the YIELD, no invocation task can ever write an ERROR frame,
and an event handler's task never writes anything. -/
theorem handler_outcome_frames :
    (∀ (cb : RegisterFn) (rid : Int) (inv : XInvocation),
      cb inv = .panic → runInvocationTask cb rid inv = none) ∧
    (∀ (cb : RegisterFn) (rid : Int) (inv : XInvocation) (y : YieldBody),
      cb inv = .success y →
      runInvocationTask cb rid inv = some (.yieldF rid y.args y.kwargs)) ∧
    (∀ (cb : RegisterFn) (rid t r : Int) (u : String) (a : Option Args)
        (k : Option KwArgs) (inv : XInvocation),
      runInvocationTask cb rid inv ≠ some (.errorF t r u a k)) ∧
    (∀ (cb : EventFn) (ev : XEvent), runEventTask cb ev = none) := by
  refine ⟨?_, ?_, ?_, ?_⟩
  · intro cb rid inv h
    simp [runInvocationTask, h]
  · intro cb rid inv y h
    simp [runInvocationTask, h]
  · intro cb rid t r u a k inv
    unfold runInvocationTask
    cases cb inv <;> simp
  · intro cb ev
    unfold runEventTask
    cases cb ev <;> rfl

/-- Witness for `handler_outcome_frames` at the concrete handlers. -/
theorem handler_outcome_frames_witness :
    runInvocationTask panicHandler 3 invEx = none ∧
    runInvocationTask okHandler 3 invEx = some (.yieldF 3 none none) ∧
    runInvocationTask okHandler 3 invEx ≠
      some (.errorF messageTypeInvocation 3 "wamp.error.runtime_error" none none) ∧
    runEventTask okEventHandler ⟨none, none, []⟩ = none :=
  ⟨handler_outcome_frames.1 panicHandler 3 invEx rfl,
   handler_outcome_frames.2.1 okHandler 3 invEx ⟨none, none⟩ rfl,
   handler_outcome_frames.2.2.1 okHandler 3 messageTypeInvocation 3
     "wamp.error.runtime_error" none none invEx,
   handler_outcome_frames.2.2.2 okEventHandler ⟨none, none, []⟩⟩

/-- C2 (counterexample): neither session exposes a public `unregister` or
`unsubscribe` operation. -/
theorem no_public_unregister_unsubscribe :
    "unregister" ∉ asyncSessionPublicOps ∧
    "unsubscribe" ∉ asyncSessionPublicOps ∧
    "unregister" ∉ syncSessionPublicOps ∧
    "unsubscribe" ∉ syncSessionPublicOps := by
  decide

/-- C2 (amended): the sessions keep `unregister_requests` /
`unsubscribe_requests` pending maps whose entries the dispatcher pops on
UNREGISTERED / UNSUBSCRIBED (delivering no-error), but no public
`unregister` / `unsubscribe` operation exists, and no dispatcher step ever
removes a handler from `registrations` or `subscriptions`. -/
theorem unregistered_unsubscribed_dispatch_only :
    (∀ (s : SessionState) (rid : Int) (chan : Nat),
      lookupI s.unregister_requests rid = some chan →
      processIncomingMessage (.unregistered rid) s =
        ⟨{ s with unregister_requests := removeI s.unregister_requests rid },
          [.unregisterD chan none], [], false, false⟩) ∧
    (∀ (s : SessionState) (rid : Int) (chan : Nat),
      lookupI s.unsubscribe_requests rid = some chan →
      processIncomingMessage (.unsubscribed rid) s =
        ⟨{ s with unsubscribe_requests := removeI s.unsubscribe_requests rid },
          [.unsubscribeD chan none], [], false, false⟩) ∧
    (∀ (m : Message) (s : SessionState),
      (processIncomingMessage m s).state.registrations = s.registrations ∧
      (processIncomingMessage m s).state.subscriptions = s.subscriptions) ∧
    "unregister" ∉ asyncSessionPublicOps ∧
    "unsubscribe" ∉ asyncSessionPublicOps ∧
    "unregister" ∉ syncSessionPublicOps ∧
    "unsubscribe" ∉ syncSessionPublicOps := by
  refine ⟨?_, ?_, ?_, by decide, by decide, by decide, by decide⟩
  · intro s rid chan h
    simp [processIncomingMessage, h]
  · intro s rid chan h
    simp [processIncomingMessage, h]
  · intro m s
    refine ⟨?_, ?_⟩ <;>
      cases m <;>
      simp only [processIncomingMessage, emptyStep] <;>
      (repeat' split) <;>
      rfl

/-- Witness for `unregistered_unsubscribed_dispatch_only` at `sW`. -/
theorem unregistered_unsubscribed_dispatch_only_witness :
    processIncomingMessage (.unregistered 3) sW =
      ⟨{ sW with unregister_requests := removeI sW.unregister_requests 3 },
        [.unregisterD 1 none], [], false, false⟩ ∧
    processIncomingMessage (.unsubscribed 3) sW =
      ⟨{ sW with unsubscribe_requests := removeI sW.unsubscribe_requests 3 },
        [.unsubscribeD 1 none], [], false, false⟩ :=
  ⟨unregistered_unsubscribed_dispatch_only.1 sW 3 1 rfl,
   unregistered_unsubscribed_dispatch_only.2.1 sW 3 1 rfl⟩

/-- C1 (code-bug evaluation): the async session's `register` / `subscribe`
never install the request's handler — after a successful REGISTERED reply the
`registrations` map is still empty and a subsequent INVOCATION for the
returned registration id is silently dropped — while the sync session does
install the handler under the returned id before returning. -/
theorem async_register_subscribe_install_nothing :
    (registerOpAsync SessionState.default 1 5 regReqEx true true
        (some ⟨7, none⟩)).state.registrations = [] ∧
    (subscribeOpAsync SessionState.default 2 6 subReqEx true true
        (some ⟨8, none⟩)).state.subscriptions = [] ∧
    processIncomingMessage (.invocation 9 7 none none [])
        ((registerOpAsync SessionState.default 1 5 regReqEx true true
            (some ⟨7, none⟩)).state) =
      emptyStep ((registerOpAsync SessionState.default 1 5 regReqEx true true
            (some ⟨7, none⟩)).state) ∧
    (registerOpSync SessionState.default 1 5 regReqEx true true
        (some ⟨7, none⟩)).state.registrations = [(7, okHandler)] ∧
    (subscribeOpSync SessionState.default 2 6 subReqEx true true
        (some ⟨8, none⟩)).state.subscriptions = [(8, okEventHandler)] := by
  refine ⟨rfl, rfl, rfl, rfl, rfl⟩

/-- C7 (code-bug evaluation): `RawSocketPeer::read` under-reads.  When the
whole frame `header [0,0,0,2] ++ payload [10,20]` arrives in one chunk the
code returns the payload, but when the stream yields it as two partial reads
`[0,0]` then `[0,2,10,20]`, the single un-checked `read` call fills only two
header bytes, the zero-padded header parses as length 0, and an empty payload
is returned — unlike the read-exactly behaviour the spec requires. -/
theorem rawsocket_read_underread_bug :
    rawSocketRead [[0, 0, 0, 2, 10, 20]] = some [10, 20] ∧
    rawSocketRead [[0, 0], [0, 2, 10, 20]] = some [] ∧
    specRawSocketRead [0, 0, 0, 2, 10, 20] = some [10, 20] := by
  refine ⟨by decide, by decide, by decide⟩

/-- C10: in the sync session a register (subscribe) completing with an ERROR
reply still inserts the request's callback into `registrations`
(`subscriptions`), keyed by the sentinel id 0 that the dispatcher puts into
the error response. -/
theorem failed_sync_register_installs_handler_at_zero :
    (∀ (s : SessionState) (rid : Int) (chan : Nat) (req : RegisterRequestR)
        (we : WampError),
      (registerOpSync s rid chan req true true
          (some ⟨0, some we⟩)).state.registrations =
        insertI s.registrations 0 req.callback ∧
      (registerOpSync s rid chan req true true (some ⟨0, some we⟩)).result =
        .ok ⟨0, some we⟩) ∧
    (∀ (s : SessionState) (rid : Int) (chan : Nat) (req : SubscribeRequestR)
        (we : WampError),
      (subscribeOpSync s rid chan req true true
          (some ⟨0, some we⟩)).state.subscriptions =
        insertI s.subscriptions 0 req.callback ∧
      (subscribeOpSync s rid chan req true true (some ⟨0, some we⟩)).result =
        .ok ⟨0, some we⟩) ∧
    (∀ (s : SessionState) (rid : Int) (chan : Nat) (uri : String)
        (a : Option Args) (k : Option KwArgs),
      lookupI s.register_requests rid = some chan →
      (processIncomingMessage (.error messageTypeRegister rid uri a k) s).deliveries =
        [.registerD chan ⟨0, some ⟨uri, a, k⟩⟩]) ∧
    (∀ (s : SessionState) (rid : Int) (chan : Nat) (uri : String)
        (a : Option Args) (k : Option KwArgs),
      lookupI s.subscribe_requests rid = some chan →
      (processIncomingMessage (.error messageTypeSubscribe rid uri a k) s).deliveries =
        [.subscribeD chan ⟨0, some ⟨uri, a, k⟩⟩]) := by
  refine ⟨?_, ?_, ?_, ?_⟩
  · intro s rid chan req we
    exact ⟨by simp [registerOpSync], by simp [registerOpSync]⟩
  · intro s rid chan req we
    exact ⟨by simp [subscribeOpSync], by simp [subscribeOpSync]⟩
  · intro s rid chan uri a k h
    simp [processIncomingMessage, messageTypeCall, messageTypeRegister, h]
  · intro s rid chan uri a k h
    simp [processIncomingMessage, messageTypeCall, messageTypeRegister,
      messageTypeUnregister, messageTypeSubscribe, h]

/-- Witness for `failed_sync_register_installs_handler_at_zero`. -/
theorem failed_sync_register_installs_handler_at_zero_witness :
    (registerOpSync sW 3 1 regReqEx true true
        (some ⟨0, some ⟨"e", none, none⟩⟩)).state.registrations =
      insertI sW.registrations 0 regReqEx.callback ∧
    (subscribeOpSync sW 3 1 subReqEx true true
        (some ⟨0, some ⟨"e", none, none⟩⟩)).state.subscriptions =
      insertI sW.subscriptions 0 subReqEx.callback ∧
    (processIncomingMessage (.error messageTypeRegister 3 "e" none none) sW).deliveries =
      [.registerD 1 ⟨0, some ⟨"e", none, none⟩⟩] ∧
    (processIncomingMessage (.error messageTypeSubscribe 3 "e" none none) sW).deliveries =
      [.subscribeD 1 ⟨0, some ⟨"e", none, none⟩⟩] :=
  ⟨(failed_sync_register_installs_handler_at_zero.1 sW 3 1 regReqEx
      ⟨"e", none, none⟩).1,
   (failed_sync_register_installs_handler_at_zero.2.1 sW 3 1 subReqEx
      ⟨"e", none, none⟩).1,
   failed_sync_register_installs_handler_at_zero.2.2.1 sW 3 1 "e" none none rfl,
   failed_sync_register_installs_handler_at_zero.2.2.2 sW 3 1 "e" none none rfl⟩

end XConn
